import Mathlib

/-!
Shallow embedding of the NFL chat service (query classifier, data aggregator,
context summarizer, LLM gateway cache) from:
  App/services/Nfl_query_service_new.py
  App/services/LLm_service.py
  App/services/api_client.py

Python strings are modelled as `List Char` after an explicit ASCII lowering
(`str.lower` is applied once at the top of `_classify_query`; only ASCII
letters matter for every keyword and pattern in the source).  Python dicts
that the code reads through `.get(key, default)` are modelled as structures
with `Option` fields (`none` = key absent); a dict none of whose modelled
keys is present plays the role of the falsy `{}`.
-/

namespace ChatNfl

/-! ### String utilities: Python `str.lower`, substring `in`, and the
regex fragments used by `_classify_query`. -/

/-- ASCII lowering of one character (the fragment of `str.lower` relevant to
the ASCII keywords and patterns of the source). -/
def lowerChar (c : Char) : Char :=
  if 'A' ≤ c ∧ c ≤ 'Z' then Char.ofNat (c.toNat + 32) else c

/-- `query.lower()` as a character list. -/
def lowerStr (s : String) : List Char := s.data.map lowerChar

/-- Python substring containment `nee in hay`. -/
def containsSub (nee : List Char) : List Char → Bool
  | [] => nee.isEmpty
  | c :: t => nee.isPrefixOf (c :: t) || containsSub nee t

/-- `term in query` for a string literal term. -/
def strIn (needle : String) (hay : List Char) : Bool := containsSub needle.data hay

/-- Python `any(term in query for term in terms)`. -/
def hasAnyTerm (hay : List Char) (terms : List String) : Bool :=
  terms.any (fun t => strIn t hay)

/-- Leftmost match of the regex `20\d{2}` (`re.search`), returning the
matched four characters. -/
def findYear : List Char → Option String
  | [] => none
  | c :: rest =>
    match rest with
    | c2 :: c3 :: c4 :: _ =>
      if c = '2' && c2 = '0' && c3.isDigit && c4.isDigit then
        some (String.mk [c, c2, c3, c4])
      else findYear rest
    | _ => none

/-- Leftmost match of the regex `week (\d+)` (`re.search`), returning the
captured digit group. -/
def findWeek : List Char → Option String
  | [] => none
  | c :: rest =>
    if ['w', 'e', 'e', 'k', ' '].isPrefixOf (c :: rest) then
      let ds := ((c :: rest).drop 5).takeWhile Char.isDigit
      if ds.isEmpty then findWeek rest else some (String.mk ds)
    else findWeek rest

def isUpperAZ (c : Char) : Bool := decide ('A' ≤ c) && decide (c ≤ 'Z')

def isLowerAZ (c : Char) : Bool := decide ('a' ≤ c) && decide (c ≤ 'z')

/-- Match `[A-Z][a-z]+` at the head of the list, returning the matched word
and the remaining input. -/
def matchCapWord : List Char → Option (List Char × List Char)
  | [] => none
  | c :: rest =>
    if isUpperAZ c then
      let ls := rest.takeWhile isLowerAZ
      if ls.isEmpty then none else some (c :: ls, rest.drop ls.length)
    else none

/-- Match `[A-Z][a-z]+ [A-Z][a-z]+` at the head of the list (the capture
group of the player-name regex). -/
def matchFullName (l : List Char) : Option (List Char) :=
  match matchCapWord l with
  | none => none
  | some (w1, rest) =>
    match rest with
    | ' ' :: rest2 =>
      match matchCapWord rest2 with
      | none => none
      | some (w2, _) => some (w1 ++ ' ' :: w2)
    | _ => none

/-- The alternation `player|quarterback|qb|running back|rb|wide receiver|wr|tight end|te`
from the player-name regex, in source order. -/
def positionKeywords : List String :=
  ["player", "quarterback", "qb", "running back", "rb", "wide receiver", "wr",
   "tight end", "te"]

/-- At a fixed start position, try each alternation branch in order followed
by a space and the two-capitalised-word name pattern; first full match wins. -/
def nameAfterKeyword (l : List Char) : Option (List Char) :=
  (positionKeywords.filterMap (fun k =>
    if (k.data ++ [' ']).isPrefixOf l then matchFullName (l.drop (k.length + 1))
    else none)).head?

/-- `re.search` of the player-name pattern: scan start positions left to
right. -/
def findPlayer : List Char → Option String
  | [] => none
  | c :: rest =>
    match nameAfterKeyword (c :: rest) with
    | some name => some (String.mk name)
    | none => findPlayer rest

/-! ### Query classifier (`NFLQueryService._classify_query`) -/

/-- The current date, standing for `datetime.datetime.now()` (the only
impure input of `_classify_query`). -/
structure Today where
  year : Nat
  month : Nat
  day : Nat
deriving Repr, DecidableEq

/-- The `params` dict built by `_classify_query` and consumed by
`_fetch_relevant_data` (a field is `none` when the key is absent). -/
structure Params where
  year : Option String := none
  week : Option String := none
  season_type : Option String := none
  teams : Option (List String) := none
  player : Option String := none
deriving Repr, DecidableEq

/-- `self.team_patterns`, in the dict's literal (insertion) order. -/
def teamPatterns : List (String × String) :=
  [("cardinals", "ARI"), ("falcons", "ATL"), ("ravens", "BAL"), ("bills", "BUF"),
   ("panthers", "CAR"), ("bears", "CHI"), ("bengals", "CIN"), ("browns", "CLE"),
   ("cowboys", "DAL"), ("broncos", "DEN"), ("lions", "DET"), ("packers", "GB"),
   ("texans", "HOU"), ("colts", "IND"), ("jaguars", "JAX"), ("chiefs", "KC"),
   ("raiders", "LV"), ("chargers", "LAC"), ("rams", "LA"), ("dolphins", "MIA"),
   ("vikings", "MIN"), ("patriots", "NE"), ("saints", "NO"), ("giants", "NYG"),
   ("jets", "NYJ"), ("eagles", "PHI"), ("steelers", "PIT"), ("seahawks", "SEA"),
   ("49ers", "SF"), ("niners", "SF"), ("buccaneers", "TB"), ("bucs", "TB"),
   ("titans", "TEN"), ("commanders", "WAS"), ("washington", "WAS")]

/-- The team-mention scan: every alias that occurs as a substring of the
lowered query contributes its code, in table-iteration order. -/
def extractTeams (q : List Char) : List String :=
  (teamPatterns.filter (fun p => strIn p.1 q)).map Prod.snd

def rankingTerms : List String :=
  ["ranking", "rank", "best", "top", "stats", "statistics", "projections"]

def matchupTerms : List String :=
  ["matchup", "vs", "versus", "against", "playing against", "face off", "game between"]

def injuryTerms : List String :=
  ["injury", "injured", "hurt", "sidelined", "out", "questionable", "probable"]

def scheduleTerms : List String :=
  ["schedule", "upcoming", "games", "playing", "when", "calendar"]

def depthChartTerms : List String :=
  ["depth chart", "roster", "lineup", "starters", "bench", "team composition"]

def standingsTerms : List String :=
  ["standings", "record", "win-loss", "win/loss", "division standing", "conference standing"]

def boxscoreTerms : List String :=
  ["boxscore", "score", "result", "game result", "points", "final score"]

/-- The ordered keyword-group chain at the end of `_classify_query`; the
source returns `(label, params)` at the first matching group, with the same
`params` in every branch, so the label choice is factored out here. -/
def classifyType (q : List Char) : String :=
  if hasAnyTerm q rankingTerms then "player_rankings"
  else if hasAnyTerm q matchupTerms then "matchups"
  else if hasAnyTerm q injuryTerms then "injuries"
  else if hasAnyTerm q scheduleTerms then "schedule"
  else if hasAnyTerm q depthChartTerms then "depth_chart"
  else if hasAnyTerm q standingsTerms then "standings"
  else if hasAnyTerm q boxscoreTerms then "boxscore"
  else "general"

/-- The parameter-extraction half of `_classify_query`, operating on the
already-lowered query. -/
def classifyParams (today : Today) (q : List Char) : Params :=
  let year := match findYear q with
    | some y => y
    | none => toString today.year
  let week := match findWeek q with
    | some w => w
    | none =>
      if today.month < 9 then "1"
      else toString (min 17 (max 1 ((today.month - 9) * 4 + today.day / 7 + 1)))
  let seasonType :=
    if hasAnyTerm q ["preseason", "pre-season", "pre season"] then "PRE"
    else if hasAnyTerm q ["postseason", "post-season", "post season", "playoffs"] then "PST"
    else if today.month < 9 then "PRE"
    else if 12 < today.month ∨ today.month < 3 then "PST"
    else "REG"
  let teamsFound := extractTeams q
  { year := some year
    week := some week
    season_type := some seasonType
    teams := if teamsFound.isEmpty then none else some teamsFound
    player := findPlayer q }

/-- `NFLQueryService._classify_query`: lower the query once, then extract
parameters and pick the query type. -/
def classifyQuery (today : Today) (s : String) : String × Params :=
  let q := lowerStr s
  (classifyType q, classifyParams today q)

/-- The closed set of labels `_classify_query` can return. -/
def queryTypeLabels : List String :=
  ["player_rankings", "matchups", "injuries", "schedule", "depth_chart",
   "standings", "boxscore", "general"]

/-! ### Upstream payload shapes

The JSON bodies the aggregator fetches and the summarizers read.  Every key
the source accesses is a structure field; `none` models an absent key, so
`d.get("k", v)` is `d.k.getD v` and `if "k" in d` is a match on the option.
A record whose modelled fields are all absent (`isBlank`) plays the falsy
`{}` in `if not data:` checks. -/

structure TeamEntry where
  name : Option String := none
  market : Option String := none
  «alias» : Option String := none
deriving Repr, DecidableEq

structure DivisionData where
  name : Option String := none
  «alias» : Option String := none
  teams : Option (List TeamEntry) := none
deriving Repr, DecidableEq

structure ConferenceData where
  name : Option String := none
  «alias» : Option String := none
  divisions : Option (List DivisionData) := none
deriving Repr, DecidableEq

/-- Body of `/nfl/teams` (league hierarchy). -/
structure LeagueData where
  name : Option String := none
  conferences : Option (List ConferenceData) := none
deriving Repr, DecidableEq

def LeagueData.isBlank (d : LeagueData) : Bool :=
  d.name.isNone && d.conferences.isNone

structure SeasonInfo where
  year : Option String := none
deriving Repr, DecidableEq

structure StTeamData where
  name : Option String := none
  «alias» : Option String := none
  wins : Option Int := none
  losses : Option Int := none
  ties : Option Int := none
  win_pct : Option Rat := none
  points_for : Option Int := none
  points_against : Option Int := none
deriving Repr, DecidableEq

structure StDivisionData where
  name : Option String := none
  «alias» : Option String := none
  teams : Option (List StTeamData) := none
deriving Repr, DecidableEq

structure StConferenceData where
  name : Option String := none
  «alias» : Option String := none
  divisions : Option (List StDivisionData) := none
deriving Repr, DecidableEq

/-- Body of `/nfl/standings/{year}/{season_type}`. -/
structure StandingsData where
  season : Option SeasonInfo := none
  conferences : Option (List StConferenceData) := none
deriving Repr, DecidableEq

def StandingsData.isBlank (d : StandingsData) : Bool :=
  d.season.isNone && d.conferences.isNone

structure CoachData where
  name : Option String := none
  position : Option String := none
  experience : Option String := none
deriving Repr, DecidableEq

structure PlayerData where
  name : Option String := none
  position : Option String := none
  jersey_number : Option String := none
  depth : Option Int := none
deriving Repr, DecidableEq

/-- Body of `/nfl/teams/{team_id}` (team profile). -/
structure ProfileData where
  id : Option String := none
  name : Option String := none
  market : Option String := none
  «alias» : Option String := none
  conference : Option String := none
  division : Option String := none
  coaches : Option (List CoachData) := none
  players : Option (List PlayerData) := none
deriving Repr, DecidableEq

def ProfileData.isBlank (p : ProfileData) : Bool :=
  p.id.isNone && p.name.isNone && p.market.isNone && p.«alias».isNone &&
  p.conference.isNone && p.division.isNone && p.coaches.isNone && p.players.isNone

structure TeamRef where
  name : Option String := none
  «alias» : Option String := none
deriving Repr, DecidableEq

structure GameData where
  id : Option String := none
  status : Option String := none
  scheduled : Option String := none
  home : Option TeamRef := none
  away : Option TeamRef := none
  home_points : Option Int := none
  away_points : Option Int := none
deriving Repr, DecidableEq

/-- `game.get("home", {}).get("alias", "")`. -/
def GameData.homeAlias (g : GameData) : String := (g.home.getD {}).«alias».getD ""

/-- `game.get("away", {}).get("alias", "")`. -/
def GameData.awayAlias (g : GameData) : String := (g.away.getD {}).«alias».getD ""

/-- Body of `/nfl/schedule/{year}/{season_type}`. -/
structure ScheduleData where
  year : Option String := none
  type : Option String := none
  games : Option (List GameData) := none
deriving Repr, DecidableEq

structure InjuredPlayer where
  name : Option String := none
  position : Option String := none
  status : Option String := none
  injury : Option String := none
deriving Repr, DecidableEq

structure TeamInjuryData where
  name : Option String := none
  «alias» : Option String := none
  players : Option (List InjuredPlayer) := none
deriving Repr, DecidableEq

def TeamInjuryData.isBlank (d : TeamInjuryData) : Bool :=
  d.name.isNone && d.«alias».isNone && d.players.isNone

/-- Body of `/nfl/injuries/{year}/{season_type}/{week}`. -/
structure InjuryReportData where
  week : Option String := none
  teams : Option (List TeamInjuryData) := none
deriving Repr, DecidableEq

structure TeamTotals where
  first_downs : Option Int := none
  total_yards : Option Int := none
  penalties : Option Int := none
  penalty_yards : Option Int := none
  turnovers : Option Int := none
  possession_time : Option String := none
deriving Repr, DecidableEq

structure PassingStats where
  completions : Option Int := none
  attempts : Option Int := none
  yards : Option Int := none
  touchdowns : Option Int := none
  interceptions : Option Int := none
deriving Repr, DecidableEq

structure RushingStats where
  attempts : Option Int := none
  yards : Option Int := none
  touchdowns : Option Int := none
deriving Repr, DecidableEq

structure ReceivingStats where
  receptions : Option Int := none
  yards : Option Int := none
  touchdowns : Option Int := none
deriving Repr, DecidableEq

structure StatsData where
  team : Option TeamTotals := none
  passing : Option PassingStats := none
  rushing : Option RushingStats := none
  receiving : Option ReceivingStats := none
deriving Repr, DecidableEq

def StatsData.isBlank (s : StatsData) : Bool :=
  s.team.isNone && s.passing.isNone && s.rushing.isNone && s.receiving.isNone

/-- An entry of a side's `scoring` array (passed through unmodified by the
boxscore summarizer). -/
structure ScoringItem where
  period : Option Int := none
  points : Option Int := none
deriving Repr, DecidableEq

structure SideData where
  name : Option String := none
  «alias» : Option String := none
  scoring : Option (List ScoringItem) := none
  statistics : Option StatsData := none
deriving Repr, DecidableEq

/-- Body of `/nfl/games/{game_id}/boxscore`. -/
structure BoxscoreData where
  id : Option String := none
  status : Option String := none
  scheduled : Option String := none
  home : Option SideData := none
  away : Option SideData := none
  home_points : Option Int := none
  away_points : Option Int := none
deriving Repr, DecidableEq

/-! ### Context summarizer (`LLMService._summarize_*`)

Each `_summarize_*` method of the source wraps its body in `try/except`
with a textual fallback; in this typed model every operation of the body is
total, so the handlers are unreachable and only the bodies are embedded.
Summarizers that begin with `if not data: return {}` return an `Option`
(`none` standing for the returned `{}`). -/

structure TeamBrief where
  name : String
  market : String
  «alias» : String
deriving Repr, DecidableEq

structure DivSummary where
  name : String
  «alias» : String
  teams : List TeamBrief
deriving Repr, DecidableEq

structure ConfSummary where
  name : String
  «alias» : String
  divisions : List DivSummary
deriving Repr, DecidableEq

structure LeagueSummary where
  league_name : String
  conferences : List ConfSummary
deriving Repr, DecidableEq

/-- `LLMService._summarize_league_structure`. -/
def summarizeLeagueStructure (d : LeagueData) : Option LeagueSummary :=
  if d.isBlank then none
  else some
    { league_name := d.name.getD "NFL"
      conferences := (d.conferences.getD []).map (fun cf =>
        { name := cf.name.getD ""
          «alias» := cf.«alias».getD ""
          divisions := (cf.divisions.getD []).map (fun dv =>
            { name := dv.name.getD ""
              «alias» := dv.«alias».getD ""
              teams := (dv.teams.getD []).map (fun t =>
                { name := t.name.getD ""
                  market := t.market.getD ""
                  «alias» := t.«alias».getD "" }) }) }) }

structure StTeamSummary where
  name : String
  «alias» : String
  wins : Int
  losses : Int
  ties : Int
  win_pct : Rat
  points_for : Int
  points_against : Int
deriving Repr, DecidableEq

structure StDivSummary where
  name : String
  «alias» : String
  teams : List StTeamSummary
deriving Repr, DecidableEq

structure StConfSummary where
  name : String
  «alias» : String
  divisions : List StDivSummary
deriving Repr, DecidableEq

structure StandingsSummary where
  season : String
  conferences : List StConfSummary
deriving Repr, DecidableEq

/-- `LLMService._summarize_standings_data`. -/
def summarizeStandingsData (d : StandingsData) : Option StandingsSummary :=
  if d.isBlank then none
  else some
    { season := (d.season.getD {}).year.getD ""
      conferences := (d.conferences.getD []).map (fun cf =>
        { name := cf.name.getD ""
          «alias» := cf.«alias».getD ""
          divisions := (cf.divisions.getD []).map (fun dv =>
            { name := dv.name.getD ""
              «alias» := dv.«alias».getD ""
              teams := (dv.teams.getD []).map (fun t =>
                { name := t.name.getD ""
                  «alias» := t.«alias».getD ""
                  wins := t.wins.getD 0
                  losses := t.losses.getD 0
                  ties := t.ties.getD 0
                  win_pct := t.win_pct.getD 0
                  points_for := t.points_for.getD 0
                  points_against := t.points_against.getD 0 }) }) }) }

structure TeamInfo where
  id : String
  name : String
  market : String
  «alias» : String
  conference : String
  division : String
deriving Repr, DecidableEq

structure CoachSummary where
  name : String
  position : String
  experience : String
deriving Repr, DecidableEq

structure PlayerSummary where
  name : String
  position : String
  jersey_number : String
  depth : Int
deriving Repr, DecidableEq

structure ProfileSummary where
  team_info : TeamInfo
  coaches : List CoachSummary
  key_players : List PlayerSummary
deriving Repr, DecidableEq

/-- `LLMService._summarize_team_profile`: basic info, first 3 coaches,
first 10 players after a stable ascending sort by `depth` (default 99). -/
def summarizeTeamProfile (p : ProfileData) : Option ProfileSummary :=
  if p.isBlank then none
  else some
    { team_info :=
        { id := p.id.getD ""
          name := p.name.getD ""
          market := p.market.getD ""
          «alias» := p.«alias».getD ""
          conference := p.conference.getD ""
          division := p.division.getD "" }
      coaches :=
        match p.coaches with
        | none => []
        | some cs => (cs.take 3).map (fun c =>
            { name := c.name.getD ""
              position := c.position.getD ""
              experience := c.experience.getD "" })
      key_players :=
        match p.players with
        | none => []
        | some ps =>
          ((List.insertionSort (fun a b => a.depth.getD 99 ≤ b.depth.getD 99) ps).take 10).map
            (fun pl =>
              { name := pl.name.getD ""
                position := pl.position.getD ""
                jersey_number := pl.jersey_number.getD ""
                depth := pl.depth.getD 0 }) }

structure InjuredPlayerSummary where
  name : String
  position : String
  status : String
  injury : String
deriving Repr, DecidableEq

structure TeamInjurySummary where
  team : String
  «alias» : String
  injured_players : List InjuredPlayerSummary
deriving Repr, DecidableEq

/-- `LLMService._summarize_team_injuries`: first 10 injured players. -/
def summarizeTeamInjuries (d : TeamInjuryData) : Option TeamInjurySummary :=
  if d.isBlank then none
  else some
    { team := d.name.getD ""
      «alias» := d.«alias».getD ""
      injured_players :=
        match d.players with
        | none => []
        | some ps => (ps.take 10).map (fun pl =>
            { name := pl.name.getD ""
              position := pl.position.getD ""
              status := pl.status.getD ""
              injury := pl.injury.getD "" }) }

structure GameTeamSummary where
  name : String
  «alias» : String
  points : Option Int
deriving Repr, DecidableEq

structure GameSummary where
  id : String
  status : String
  scheduled : String
  home_team : GameTeamSummary
  away_team : GameTeamSummary
deriving Repr, DecidableEq

/-- `LLMService._summarize_games`: first 5 games of the list. -/
def summarizeGames (games : List GameData) : List GameSummary :=
  if games.isEmpty then []
  else (games.take 5).map (fun g =>
    { id := g.id.getD ""
      status := g.status.getD ""
      scheduled := g.scheduled.getD ""
      home_team :=
        { name := (g.home.getD {}).name.getD ""
          «alias» := (g.home.getD {}).«alias».getD ""
          points := g.home_points }
      away_team :=
        { name := (g.away.getD {}).name.getD ""
          «alias» := (g.away.getD {}).«alias».getD ""
          points := g.away_points } })

structure SchedGameTeam where
  name : String
  «alias» : String
deriving Repr, DecidableEq

structure SchedGameSummary where
  id : String
  status : String
  scheduled : String
  home_team : SchedGameTeam
  away_team : SchedGameTeam
deriving Repr, DecidableEq

structure ScheduleSummary where
  year : String
  type : String
  games : List SchedGameSummary
deriving Repr, DecidableEq

/-- `LLMService._summarize_schedule_data`: first 10 games (no emptiness
guard in the source). -/
def summarizeScheduleData (d : ScheduleData) : ScheduleSummary :=
  { year := d.year.getD ""
    type := d.type.getD ""
    games := ((d.games.getD []).take 10).map (fun g =>
      { id := g.id.getD ""
        status := g.status.getD ""
        scheduled := g.scheduled.getD ""
        home_team :=
          { name := (g.home.getD {}).name.getD ""
            «alias» := (g.home.getD {}).«alias».getD "" }
        away_team :=
          { name := (g.away.getD {}).name.getD ""
            «alias» := (g.away.getD {}).«alias».getD "" } }) }

structure TeamInjuryReportSummary where
  name : String
  «alias» : String
  injuries : List InjuredPlayerSummary
deriving Repr, DecidableEq

structure InjuryReportSummary where
  week : String
  teams_with_injuries : List TeamInjuryReportSummary
deriving Repr, DecidableEq

/-- `LLMService._summarize_injury_data`: first 10 teams, first 10 players
per team. -/
def summarizeInjuryData (d : InjuryReportData) : InjuryReportSummary :=
  { week := d.week.getD ""
    teams_with_injuries := ((d.teams.getD []).take 10).map (fun t =>
      { name := t.name.getD ""
        «alias» := t.«alias».getD ""
        injuries := ((t.players.getD []).take 10).map (fun pl =>
          { name := pl.name.getD ""
            position := pl.position.getD ""
            status := pl.status.getD ""
            injury := pl.injury.getD "" }) }) }

structure TeamTotalsSummary where
  first_downs : Int
  total_yards : Int
  penalties : Int
  penalty_yards : Int
  turnovers : Int
  time_of_possession : String
deriving Repr, DecidableEq

structure PassingSummary where
  completions : Int
  attempts : Int
  yards : Int
  touchdowns : Int
  interceptions : Int
deriving Repr, DecidableEq

structure RushingSummary where
  attempts : Int
  yards : Int
  touchdowns : Int
deriving Repr, DecidableEq

structure ReceivingSummary where
  receptions : Int
  yards : Int
  touchdowns : Int
deriving Repr, DecidableEq

structure KeyStats where
  team : Option TeamTotalsSummary := none
  passing : Option PassingSummary := none
  rushing : Option RushingSummary := none
  receiving : Option ReceivingSummary := none
deriving Repr, DecidableEq

/-- `LLMService._extract_key_stats`: each sub-block is kept (with only the
listed fields) exactly when its key is present. -/
def extractKeyStats (stats : StatsData) : KeyStats :=
  if stats.isBlank then {}
  else
    { team := stats.team.map (fun t =>
        { first_downs := t.first_downs.getD 0
          total_yards := t.total_yards.getD 0
          penalties := t.penalties.getD 0
          penalty_yards := t.penalty_yards.getD 0
          turnovers := t.turnovers.getD 0
          time_of_possession := t.possession_time.getD "" })
      passing := stats.passing.map (fun s =>
        { completions := s.completions.getD 0
          attempts := s.attempts.getD 0
          yards := s.yards.getD 0
          touchdowns := s.touchdowns.getD 0
          interceptions := s.interceptions.getD 0 })
      rushing := stats.rushing.map (fun s =>
        { attempts := s.attempts.getD 0
          yards := s.yards.getD 0
          touchdowns := s.touchdowns.getD 0 })
      receiving := stats.receiving.map (fun s =>
        { receptions := s.receptions.getD 0
          yards := s.yards.getD 0
          touchdowns := s.touchdowns.getD 0 }) }

structure BoxSideSummary where
  name : String
  «alias» : String
  points : Int
  scoring : List ScoringItem
  statistics : KeyStats
deriving Repr, DecidableEq

structure BoxscoreSummary where
  id : String
  status : String
  scheduled : String
  home : BoxSideSummary
  away : BoxSideSummary
deriving Repr, DecidableEq

/-- `LLMService._summarize_boxscore` (total: no emptiness guard in the
source). -/
def summarizeBoxscore (d : BoxscoreData) : BoxscoreSummary :=
  { id := d.id.getD ""
    status := d.status.getD ""
    scheduled := d.scheduled.getD ""
    home :=
      { name := (d.home.getD {}).name.getD ""
        «alias» := (d.home.getD {}).«alias».getD ""
        points := d.home_points.getD 0
        scoring := (d.home.getD {}).scoring.getD []
        statistics := extractKeyStats ((d.home.getD {}).statistics.getD {}) }
    away :=
      { name := (d.away.getD {}).name.getD ""
        «alias» := (d.away.getD {}).«alias».getD ""
        points := d.away_points.getD 0
        scoring := (d.away.getD {}).scoring.getD []
        statistics := extractKeyStats ((d.away.getD {}).statistics.getD {}) } }

/-! ### Upstream data client and aggregator
(`NFLApiClient`, `NFLQueryService._fetch_relevant_data`) -/

/-- `NFLApiClient`: one deterministic outcome per endpoint call.  The
`HTTPException` that `_get` raises on a non-2xx status or a transport
failure is `Except.error` with its detail string. -/
structure ApiClient where
  getTeams : Except String LeagueData
  getStandings : String → String → Except String StandingsData
  getSchedule : String → String → Except String ScheduleData
  getTeamProfile : String → Except String ProfileData
  getWeeklyInjuries : String → String → String → Except String InjuryReportData
  getGameBoxscore : String → Except String BoxscoreData

structure Metadata where
  year : String
  season_type : String
  week : String
deriving Repr, DecidableEq

/-- The `combined_data` dict assembled by `_fetch_relevant_data`
(`none` = key never assigned). -/
structure CombinedData where
  query_type : String
  metadata : Metadata
  league : Option LeagueData := none
  standings : Option StandingsData := none
  schedule : Option ScheduleData := none
  team_profiles : Option (List (String × ProfileData)) := none
  injuries : Option InjuryReportData := none
  team_injuries : Option (List (String × TeamInjuryData)) := none
  relevant_games : Option (List GameData) := none
  team_games : Option (List (String × List GameData)) := none
  boxscore : Option BoxscoreData := none
deriving Repr, DecidableEq

/-- Python dict assignment `m[k] = v` on an insertion-ordered dict
(overwriting keeps the key's position). -/
def upsert {α : Type} (m : List (String × α)) (k : String) (v : α) :
    List (String × α) :=
  if m.any (fun p => p.1 == k) then m.map (fun p => if p.1 == k then (k, v) else p)
  else m ++ [(k, v)]

/-- The per-code team-profile loop: each `get_team_profile` call sits in
its own `try/except`, so a failed call contributes no entry. -/
def fetchProfiles (api : ApiClient) (codes : List String) :
    List (String × ProfileData) :=
  codes.foldl (fun acc c =>
    match api.getTeamProfile c with
    | .ok p => upsert acc c p
    | .error _ => acc) []

/-- The `team_injuries` dict of the injuries branch: teams of the injury
report whose alias is one of the mentioned codes (a report team with no
alias is skipped, since `None in teams` is false). -/
def buildTeamInjuries (teams : List String) (report : InjuryReportData) :
    List (String × TeamInjuryData) :=
  (report.teams.getD []).foldl (fun acc t =>
    match t.«alias» with
    | some a => if teams.contains a then upsert acc a t else acc
    | none => acc) []

/-- One appending update `team_games[c].append(g)`. -/
def appendGame (m : List (String × List GameData)) (c : String) (g : GameData) :
    List (String × List GameData) :=
  m.map (fun p => if p.1 == c then (p.1, p.2 ++ [g]) else p)

/-- The `team_games` dict of the schedule branch: initialise every
mentioned code to `[]`, then for each game and each code append the game
when it equals the home or away alias (a code repeated in `teams` appends
twice, as in the source's nested loops). -/
def buildTeamGames (teams : List String) (games : List GameData) :
    List (String × List GameData) :=
  games.foldl (fun m g =>
    teams.foldl (fun m c =>
      if g.homeAlias == c || g.awayAlias == c then appendGame m c g else m) m)
    (teams.foldl (fun acc c => upsert acc c []) [])

/-- The `relevant_games` filter of the matchups and boxscore branches:
games whose home or away alias is a member of the mentioned codes. -/
def relevantGames (teams : List String) (games : List GameData) : List GameData :=
  games.filter (fun g => teams.contains g.homeAlias || teams.contains g.awayAlias)

/-- Python string `<`: code-point lexicographic comparison of the
character sequences. -/
def strLt (a b : String) : Prop := List.lt a.data b.data

instance (a b : String) : Decidable (strLt a b) := List.hasDecidableLt a.data b.data

/-- Python string `<=` (for a total order, `a <= b` iff `not (b < a)`). -/
def strLe (a b : String) : Prop := ¬ strLt b a

instance (a b : String) : Decidable (strLe a b) := instDecidableNot

theorem strLt_iff (a b : String) : strLt a b ↔ List.Lex (· < ·) a.data b.data :=
  List.lt_iff_lex_lt a.data b.data

theorem strLe_total (a b : String) : strLe a b ∨ strLe b a := by
  by_contra hcon
  push_neg at hcon
  obtain ⟨h1, h2⟩ := hcon
  rw [strLe, not_not, strLt_iff] at h1 h2
  exact absurd (show a.data < b.data from h2) (lt_asymm (show b.data < a.data from h1))

theorem strLe_trans (a b c : String) (h1 : strLe a b) (h2 : strLe b c) : strLe a c := by
  rw [strLe, strLt_iff] at h1 h2 ⊢
  intro hca
  rcases lt_trichotomy c.data b.data with hcb | hcb | hbc
  · exact h2 hcb
  · exact h1 (hcb ▸ hca)
  · exact h1 (show b.data < a.data from
      lt_trans hbc (show c.data < a.data from hca))

/-- `relevant_games.sort(key=lambda g: g.get("scheduled", ""), reverse=True)`:
Python list sort is stable, and a stable sort is determined by its
comparison, so any stable descending sort on the scheduled timestamp
string models it; `insertionSort` with the non-strict descending
comparison is stable. -/
def sortGamesDesc (games : List GameData) : List GameData :=
  List.insertionSort (fun a b => strLe (b.scheduled.getD "") (a.scheduled.getD "")) games

/-- The local `year = params.get("year", "2023")` of `_fetch_relevant_data`. -/
def fetchYear (params : Params) : String := params.year.getD "2023"

/-- The local `season_type = params.get("season_type", "REG")`. -/
def fetchSeasonType (params : Params) : String := params.season_type.getD "REG"

/-- The local `week = params.get("week", "1")`. -/
def fetchWeek (params : Params) : String := params.week.getD "1"

/-- The local `teams = params.get("teams", [])`. -/
def fetchTeams (params : Params) : List String := params.teams.getD []

/-- The initial `combined_data` dict with `query_type` and `metadata`. -/
def baseCombined (query_type : String) (params : Params) : CombinedData :=
  { query_type := query_type
    metadata := ⟨fetchYear params, fetchSeasonType params, fetchWeek params⟩ }

/-- Body of `_fetch_relevant_data` inside its top-level `try`: the chain of
`if query_type == ...` branches.  Every un-handled upstream failure
escapes as `Except.error`; the team-profile and boxscore sub-fetches are
individually caught. -/
def fetchRelevantDataE (api : ApiClient) (query_type : String)
    (params : Params) : Except String CombinedData :=
  let year := fetchYear params
  let season_type := fetchSeasonType params
  let week := fetchWeek params
  let teams := fetchTeams params
  let base : CombinedData := baseCombined query_type params
  if query_type == "player_rankings" then
    match api.getTeams with
    | .error e => .error e
    | .ok lg =>
      match api.getStandings year season_type with
      | .error e => .error e
      | .ok st =>
        let d := { base with league := some lg, standings := some st }
        if teams.isEmpty then .ok d
        else .ok { d with team_profiles := some (fetchProfiles api (teams.take 2)) }
  else if query_type == "matchups" then
    match api.getSchedule year season_type with
    | .error e => .error e
    | .ok sch =>
      let d := { base with schedule := some sch }
      if teams.isEmpty then .ok d
      else .ok { d with
        relevant_games := some (relevantGames teams (sch.games.getD []))
        team_profiles := some (fetchProfiles api (teams.take 2)) }
  else if query_type == "injuries" then
    match api.getWeeklyInjuries year season_type week with
    | .error e => .error e
    | .ok inj =>
      match api.getTeams with
      | .error e => .error e
      | .ok lg =>
        let d := { base with injuries := some inj, league := some lg }
        if teams.isEmpty then .ok d
        else .ok { d with team_injuries := some (buildTeamInjuries teams inj) }
  else if query_type == "schedule" then
    match api.getSchedule year season_type with
    | .error e => .error e
    | .ok sch =>
      match api.getTeams with
      | .error e => .error e
      | .ok lg =>
        let d := { base with schedule := some sch, league := some lg }
        if teams.isEmpty then .ok d
        else .ok { d with team_games := some (buildTeamGames teams (sch.games.getD [])) }
  else if query_type == "depth_chart" then
    match api.getTeams with
    | .error e => .error e
    | .ok lg =>
      let d := { base with league := some lg }
      if teams.isEmpty then
        .ok { d with team_profiles := some (fetchProfiles api ["KC", "SF"]) }
      else
        .ok { d with team_profiles := some (fetchProfiles api (teams.take 2)) }
  else if query_type == "standings" then
    match api.getStandings year season_type with
    | .error e => .error e
    | .ok st =>
      match api.getTeams with
      | .error e => .error e
      | .ok lg => .ok { base with standings := some st, league := some lg }
  else if query_type == "boxscore" then
    match api.getSchedule year season_type with
    | .error e => .error e
    | .ok sch =>
      let d := { base with schedule := some sch }
      if teams.isEmpty then .ok d
      else
        if (relevantGames teams (sch.games.getD [])).isEmpty then .ok d
        else
          match sortGamesDesc (relevantGames teams (sch.games.getD [])) with
          | [] => .ok d
          | g0 :: rest =>
            let d := { d with relevant_games := some ((g0 :: rest).take 2) }
            match g0.id with
            | none => .ok d
            | some gid =>
              if gid == "" then .ok d
              else
                match api.getGameBoxscore gid with
                | .ok b => .ok { d with boxscore := some b }
                | .error _ => .ok d
  else
    match api.getTeams with
    | .error e => .error e
    | .ok lg =>
      match api.getStandings year season_type with
      | .error e => .error e
      | .ok st =>
        match api.getSchedule year season_type with
        | .error e => .error e
        | .ok sch =>
          .ok { base with league := some lg, standings := some st, schedule := some sch }

/-- Result of `_fetch_relevant_data`: either the combined dict, or the
`{"error": msg, "query_type": qt}` dict of the top-level handler. -/
inductive FetchResult where
  | ok (data : CombinedData)
  | err (msg : String) (query_type : String)
deriving Repr, DecidableEq

/-- `NFLQueryService._fetch_relevant_data`: the body under its top-level
`try/except`. -/
def fetchRelevantData (api : ApiClient) (query_type : String)
    (params : Params) : FetchResult :=
  match fetchRelevantDataE api query_type params with
  | .ok d => .ok d
  | .error msg => .err msg query_type

/-- The summarised context dict of `_summarize_context_data` (an outer
`none` = the corresponding key was absent from the combined data). -/
structure ContextSummary where
  query_type : String
  metadata : Metadata
  league_structure : Option (Option LeagueSummary) := none
  standings : Option (Option StandingsSummary) := none
  schedule : Option ScheduleSummary := none
  team_profiles : Option (List (String × Option ProfileSummary)) := none
  injuries : Option InjuryReportSummary := none
  team_injuries : Option (List (String × Option TeamInjurySummary)) := none
  relevant_games : Option (List GameSummary) := none
  team_games : Option (List (String × List GameSummary)) := none
  boxscore : Option BoxscoreSummary := none
deriving Repr, DecidableEq

/-- `LLMService._summarize_context_data`: dispatch each present block to
its summarizer (the `try/except` fallback around the dispatch is
unreachable in this typed model). -/
def summarizeContextData (d : CombinedData) : ContextSummary :=
  { query_type := d.query_type
    metadata := d.metadata
    league_structure := d.league.map summarizeLeagueStructure
    standings := d.standings.map summarizeStandingsData
    schedule := d.schedule.map summarizeScheduleData
    team_profiles := d.team_profiles.map (fun m =>
      m.map (fun p => (p.1, summarizeTeamProfile p.2)))
    injuries := d.injuries.map summarizeInjuryData
    team_injuries := d.team_injuries.map (fun m =>
      m.map (fun p => (p.1, summarizeTeamInjuries p.2)))
    relevant_games := d.relevant_games.map summarizeGames
    team_games := d.team_games.map (fun m => m.map (fun p => (p.1, summarizeGames p.2)))
    boxscore := d.boxscore.map summarizeBoxscore }

/-! ### LLM gateway cache (`LLMService.generate_response`) -/

/-- `LLM_CACHE_TTL = 60 * 10` (seconds). -/
def LLM_CACHE_TTL : Nat := 60 * 10

/-- The process-wide `llm_cache` dict: hex key ↦ (timestamp, answer). -/
structure LlmCache where
  entries : List (String × Nat × String) := []
deriving Repr, DecidableEq

def LlmCache.lookup (c : LlmCache) (k : String) : Option (Nat × String) :=
  (c.entries.find? (fun p => p.1 == k)).map Prod.snd

def LlmCache.insert (c : LlmCache) (k : String) (v : Nat × String) : LlmCache :=
  ⟨upsert c.entries k v⟩

/-- Outcome of one outbound chat-completion call (transport +
`raise_for_status` + JSON field extraction, summarised as one result of
the external service). -/
inductive LlmOutcome where
  | success (answer : String)
  | rateLimited
  | failure (msg : String)
deriving Repr, DecidableEq

structure GenResult where
  answer : String
  cache : LlmCache
  outboundCall : Bool
deriving Repr, DecidableEq

/-- The cache key `hashlib.sha256((query + str(context_data)).encode()).hexdigest()`.
The SHA-256 hex digest of the external `hashlib` library is modelled as an
arbitrary deterministic function `hashHex`. -/
def cacheKey (hashHex : String → String) (query ctxStr : String) : String :=
  hashHex (query ++ ctxStr)

/-- `LLMService.generate_response`: cache lookup with TTL check, then (on
a miss or a stale entry) one outbound call whose successful answer is
stored back under the same key.  `now` stands for `time.time()`, and
`ctxStr` for `str(context_data)`; prompt assembly does not affect the
cache or the call count and is not modelled. -/
def generateResponse (hashHex : String → String) (outcome : LlmOutcome)
    (now : Nat) (query ctxStr : String) (cache : LlmCache) : GenResult :=
  let key := cacheKey hashHex query ctxStr
  let call : GenResult :=
    match outcome with
    | .success a => ⟨a, cache.insert key (now, a), true⟩
    | .rateLimited => ⟨"Rate limit exceeded. Please try again later.", cache, true⟩
    | .failure m => ⟨"Sorry, I could not generate a response: " ++ m, cache, true⟩
  match cache.lookup key with
  | some (t, resp) => if now - t < LLM_CACHE_TTL then ⟨resp, cache, false⟩ else call
  | none => call

/-! ### Theorems -/

/-- C2: classification is total and exhaustive: for every input string
(including the empty string) and any current date, `_classify_query`
returns a `(query_type, params)` pair whose `query_type` is one of the
eight labels, with `general` as the default; in this embedding the
function is total by construction, so no exception path exists. -/
theorem classify_query_type_total (today : Today) (s : String) :
    (classifyQuery today s).1 ∈ queryTypeLabels := by
  show classifyType (lowerStr s) ∈ queryTypeLabels
  unfold classifyType queryTypeLabels
  repeat' split
  all_goals simp

/-- C8: the keyword groups are tested in the fixed order player_rankings,
matchups, injuries, schedule, depth_chart, standings, boxscore, and the
first matching group wins; in particular any query containing a
ranking-group term classifies as `player_rankings` whatever other terms
(such as injury terms) it contains. -/
theorem classify_keyword_precedence (today : Today) (s : String) :
    (hasAnyTerm (lowerStr s) rankingTerms = true →
      (classifyQuery today s).1 = "player_rankings") ∧
    (hasAnyTerm (lowerStr s) rankingTerms = false →
      hasAnyTerm (lowerStr s) matchupTerms = true →
      (classifyQuery today s).1 = "matchups") ∧
    (hasAnyTerm (lowerStr s) rankingTerms = false →
      hasAnyTerm (lowerStr s) matchupTerms = false →
      hasAnyTerm (lowerStr s) injuryTerms = true →
      (classifyQuery today s).1 = "injuries") ∧
    (hasAnyTerm (lowerStr s) rankingTerms = false →
      hasAnyTerm (lowerStr s) matchupTerms = false →
      hasAnyTerm (lowerStr s) injuryTerms = false →
      hasAnyTerm (lowerStr s) scheduleTerms = true →
      (classifyQuery today s).1 = "schedule") ∧
    (hasAnyTerm (lowerStr s) rankingTerms = false →
      hasAnyTerm (lowerStr s) matchupTerms = false →
      hasAnyTerm (lowerStr s) injuryTerms = false →
      hasAnyTerm (lowerStr s) scheduleTerms = false →
      hasAnyTerm (lowerStr s) depthChartTerms = true →
      (classifyQuery today s).1 = "depth_chart") ∧
    (hasAnyTerm (lowerStr s) rankingTerms = false →
      hasAnyTerm (lowerStr s) matchupTerms = false →
      hasAnyTerm (lowerStr s) injuryTerms = false →
      hasAnyTerm (lowerStr s) scheduleTerms = false →
      hasAnyTerm (lowerStr s) depthChartTerms = false →
      hasAnyTerm (lowerStr s) standingsTerms = true →
      (classifyQuery today s).1 = "standings") ∧
    (hasAnyTerm (lowerStr s) rankingTerms = false →
      hasAnyTerm (lowerStr s) matchupTerms = false →
      hasAnyTerm (lowerStr s) injuryTerms = false →
      hasAnyTerm (lowerStr s) scheduleTerms = false →
      hasAnyTerm (lowerStr s) depthChartTerms = false →
      hasAnyTerm (lowerStr s) standingsTerms = false →
      hasAnyTerm (lowerStr s) boxscoreTerms = true →
      (classifyQuery today s).1 = "boxscore") ∧
    (hasAnyTerm (lowerStr s) rankingTerms = false →
      hasAnyTerm (lowerStr s) matchupTerms = false →
      hasAnyTerm (lowerStr s) injuryTerms = false →
      hasAnyTerm (lowerStr s) scheduleTerms = false →
      hasAnyTerm (lowerStr s) depthChartTerms = false →
      hasAnyTerm (lowerStr s) standingsTerms = false →
      hasAnyTerm (lowerStr s) boxscoreTerms = false →
      (classifyQuery today s).1 = "general") := by
  refine ⟨?_, ?_, ?_, ?_, ?_, ?_, ?_, ?_⟩ <;>
    (intros; show classifyType (lowerStr s) = _; unfold classifyType; simp [*])

/-- C8 witness: a query containing both a ranking term and an injury term
classifies as `player_rankings`. -/
theorem classify_keyword_precedence_witness :
    hasAnyTerm (lowerStr "injury ranking") rankingTerms = true ∧
    (classifyQuery ⟨2025, 10, 12⟩ "injury ranking").1 = "player_rankings" :=
  ⟨by decide, (classify_keyword_precedence ⟨2025, 10, 12⟩ "injury ranking").1 (by decide)⟩

/-- C10: the keyword tests are raw substring containment on the lowered
query, not whole-word matching: any query whose lowered text contains the
substring "out" (e.g. inside "about") and no term of the earlier
player_rankings or matchups groups classifies as `injuries`, whatever
later-group keywords it contains. -/
theorem classify_contains_out_injuries (today : Today) (s : String)
    (hout : strIn "out" (lowerStr s) = true)
    (hrank : hasAnyTerm (lowerStr s) rankingTerms = false)
    (hmat : hasAnyTerm (lowerStr s) matchupTerms = false) :
    (classifyQuery today s).1 = "injuries" := by
  have hinj : hasAnyTerm (lowerStr s) injuryTerms = true := by
    simp only [hasAnyTerm, injuryTerms, List.any_cons, List.any_nil, hout,
      Bool.true_or, Bool.or_true]
  exact ((classify_keyword_precedence today s).2.2.1) hrank hmat hinj

/-- C10 witness: "Tell me about the schedule and standings" contains
"out" (in "about") together with the later-group keywords "schedule" and
"standings", and classifies as `injuries`. -/
theorem classify_contains_out_injuries_witness :
    strIn "out" (lowerStr "Tell me about the schedule and standings") = true ∧
    strIn "schedule" (lowerStr "Tell me about the schedule and standings") = true ∧
    strIn "standings" (lowerStr "Tell me about the schedule and standings") = true ∧
    (classifyQuery ⟨2025, 10, 12⟩ "Tell me about the schedule and standings").1 = "injuries" :=
  ⟨by decide, by decide, by decide,
    classify_contains_out_injuries ⟨2025, 10, 12⟩ _ (by decide) (by decide) (by decide)⟩

/-- C3 counterexample: the claim predicts team_codes == ["PHI", "KC"] for
the query "How do the Eagles match up against the Chiefs", but the table
order of the alias dict puts "chiefs" (KC) before "eagles" (PHI), so the
code yields ["KC", "PHI"]. -/
theorem team_codes_example_counterexample :
    (classifyQuery ⟨2025, 10, 12⟩ "How do the Eagles match up against the Chiefs").2.teams
      ≠ some ["PHI", "KC"] := by decide

/-- C3 (amended): team-code extraction collects every team whose alias
occurs as a substring of the lowered query, in the alias table's declared
iteration order (a sublist of the table's code column, with membership
exactly for matching aliases); in particular the Eagles/Chiefs query
yields ["KC", "PHI"]. -/
theorem team_codes_table_order (s : String) :
    List.Sublist (extractTeams (lowerStr s)) (teamPatterns.map Prod.snd) ∧
    (∀ c : String, c ∈ extractTeams (lowerStr s) ↔
      ∃ p, p ∈ teamPatterns ∧ strIn p.1 (lowerStr s) = true ∧ p.2 = c) ∧
    (classifyQuery ⟨2025, 10, 12⟩ "How do the Eagles match up against the Chiefs").2.teams
      = some ["KC", "PHI"] := by
  refine ⟨List.Sublist.map Prod.snd (List.filter_sublist teamPatterns), ?_, by decide⟩
  intro c
  simp only [extractTeams, List.mem_map, List.mem_filter]
  constructor
  · rintro ⟨p, ⟨hp, hs⟩, rfl⟩
    exact ⟨p, hp, hs, rfl⟩
  · rintro ⟨p, hp, hs, rfl⟩
    exact ⟨p, ⟨hp, hs⟩, rfl⟩

/-- C9: the player-name regex demands two capitalised words but is run on
the already-lowercased query, so it can never match: at the failing input
"Is quarterback Patrick Mahomes playing in week 5 of 2023" the classifier
leaves the player parameter unset, although the same regex applied to the
raw (uncased) query would extract "Patrick Mahomes". -/
theorem player_never_extracted_at_failing_input :
    (classifyQuery ⟨2025, 10, 12⟩
        "Is quarterback Patrick Mahomes playing in week 5 of 2023").2.player = none ∧
    findPlayer "Is quarterback Patrick Mahomes playing in week 5 of 2023".data
      = some "Patrick Mahomes" := by decide

/-- C6: each per-block summarizer is total on the empty input: `{}` (all
modelled keys absent, the falsy empty dict) for the dict summarizers and
`[]` for the game-list summarizer each produce the well-formed
empty/default structure of the source, never an exception (totality is by
construction in this embedding). -/
theorem summarizers_default_on_empty :
    summarizeLeagueStructure {} = none ∧
    summarizeTeamProfile {} = none ∧
    summarizeTeamInjuries {} = none ∧
    summarizeGames [] = [] ∧
    summarizeStandingsData {} = none ∧
    summarizeScheduleData {} = { year := "", type := "", games := [] } ∧
    summarizeInjuryData {} = { week := "", teams_with_injuries := [] } ∧
    summarizeBoxscore {} =
      { id := "", status := "", scheduled := ""
        home := { name := "", «alias» := "", points := 0, scoring := [], statistics := {} }
        away := { name := "", «alias» := "", points := 0, scoring := [], statistics := {} } } ∧
    extractKeyStats {} = {} := by
  exact ⟨rfl, rfl, rfl, rfl, rfl, rfl, rfl, rfl, rfl⟩

/-- Total number of team entries in a league payload. -/
def leagueTeamCount (d : LeagueData) : Nat :=
  ((d.conferences.getD []).map (fun cf =>
    ((cf.divisions.getD []).map (fun dv => (dv.teams.getD []).length)).sum)).sum

/-- Total number of team entries in a league summary. -/
def leagueSummaryTeamCount (s : LeagueSummary) : Nat :=
  (s.conferences.map (fun cf => (cf.divisions.map (fun dv => dv.teams.length)).sum)).sum

/-- Total number of team entries in a standings payload. -/
def standingsTeamCount (d : StandingsData) : Nat :=
  ((d.conferences.getD []).map (fun cf =>
    ((cf.divisions.getD []).map (fun dv => (dv.teams.getD []).length)).sum)).sum

/-- Total number of team entries in a standings summary. -/
def standingsSummaryTeamCount (s : StandingsSummary) : Nat :=
  (s.conferences.map (fun cf => (cf.divisions.map (fun dv => dv.teams.length)).sum)).sum

/-- Length of the league-name string kept by the league summary. -/
def leagueNameLength (s : LeagueSummary) : Nat := s.league_name.length

/-- A division payload with `n` teams. -/
def mkDivision (n : Nat) : DivisionData :=
  { name := some "AFC East"
    «alias» := some "East"
    teams := some (List.replicate n { name := some "Team" }) }

/-- A league payload with one conference, one division and `n` teams. -/
def mkLeague (n : Nat) : LeagueData :=
  { name := some "National Football League"
    conferences := some
      [{ name := some "AFC"
         «alias» := some "AFC"
         divisions := some [mkDivision n] }] }

theorem leagueSummaryTeamCount_mkLeague (n : Nat) :
    (summarizeLeagueStructure (mkLeague n)).elim 0 leagueSummaryTeamCount = n := by
  simp [mkLeague, mkDivision, summarizeLeagueStructure, LeagueData.isBlank,
    leagueSummaryTeamCount]

/-- A league payload whose name string has `n` characters. -/
def mkLongNameLeague (n : Nat) : LeagueData :=
  { name := some (String.mk (List.replicate n 'x')) }

theorem leagueNameLength_mkLongNameLeague (n : Nat) :
    (summarizeLeagueStructure (mkLongNameLeague n)).elim 0 leagueNameLength = n := by
  simp [mkLongNameLeague, summarizeLeagueStructure, LeagueData.isBlank, leagueNameLength,
    String.length]

/-- C5 counterexample: the league-structure block is bounded neither in
item count nor in string length by constants independent of the upstream
payload size: a league payload with `n` teams summarizes to `n` team
entries (shown concretely at 11 teams, beyond every cap the claim cites,
and in general), and a payload whose league name has `n` characters
yields a summary whose league-name string has `n` characters (field
strings are passed through verbatim). -/
theorem league_block_unbounded :
    (summarizeLeagueStructure (mkLeague 11)).elim 0 leagueSummaryTeamCount = 11 ∧
    (¬ ∃ C : Nat, ∀ d : LeagueData,
        (summarizeLeagueStructure d).elim 0 leagueSummaryTeamCount ≤ C) ∧
    (¬ ∃ C : Nat, ∀ d : LeagueData,
        (summarizeLeagueStructure d).elim 0 leagueNameLength ≤ C) := by
  refine ⟨leagueSummaryTeamCount_mkLeague 11, ?_, ?_⟩
  · rintro ⟨C, h⟩
    have hC := h (mkLeague (C + 1))
    rw [leagueSummaryTeamCount_mkLeague] at hC
    omega
  · rintro ⟨C, h⟩
    have hC := h (mkLongNameLeague (C + 1))
    rw [leagueNameLength_mkLongNameLeague] at hC
    omega

/-- C5 (amended): every capped block obeys its explicit item-count
constant (10 teams and 10 players per team in the injury report, 5 games
per game list, 10 games for the schedule digest, 3 coaches and 10 key
players per team profile, 10 injured players per team-injury block),
while the league-structure and standings blocks keep the whole
conference/division/team hierarchy, their team counts equal to the
payload's; string length is nowhere bounded, the field strings being
passed through verbatim. -/
theorem summarizer_blocks_bounded :
    (∀ d : InjuryReportData,
      (summarizeInjuryData d).teams_with_injuries.length ≤ 10 ∧
      ∀ t ∈ (summarizeInjuryData d).teams_with_injuries, t.injuries.length ≤ 10) ∧
    (∀ gs : List GameData, (summarizeGames gs).length ≤ 5) ∧
    (∀ d : ScheduleData, (summarizeScheduleData d).games.length ≤ 10) ∧
    (∀ p : ProfileData, ∀ s, summarizeTeamProfile p = some s →
      s.coaches.length ≤ 3 ∧ s.key_players.length ≤ 10) ∧
    (∀ d : TeamInjuryData, ∀ s, summarizeTeamInjuries d = some s →
      s.injured_players.length ≤ 10) ∧
    (∀ d : LeagueData, ∀ s, summarizeLeagueStructure d = some s →
      leagueSummaryTeamCount s = leagueTeamCount d) ∧
    (∀ d : StandingsData, ∀ s, summarizeStandingsData d = some s →
      standingsSummaryTeamCount s = standingsTeamCount d) := by
  refine ⟨?_, ?_, ?_, ?_, ?_, ?_, ?_⟩
  · intro d
    constructor
    · simp [summarizeInjuryData, List.length_take]
    · intro t ht
      simp only [summarizeInjuryData, List.mem_map] at ht
      obtain ⟨x, hx, rfl⟩ := ht
      simp [List.length_take]
  · intro gs
    unfold summarizeGames
    split
    · simp
    · simp [List.length_take]
  · intro d
    simp [summarizeScheduleData, List.length_take]
  · intro p s hs
    unfold summarizeTeamProfile at hs
    split at hs
    · exact absurd hs (by simp)
    · rw [Option.some_inj] at hs
      subst hs
      constructor
      · cases p.coaches with
        | none => simp
        | some cs => simp [List.length_take]
      · cases p.players with
        | none => simp
        | some ps => simp [List.length_take]
  · intro d s hs
    unfold summarizeTeamInjuries at hs
    split at hs
    · exact absurd hs (by simp)
    · rw [Option.some_inj] at hs
      subst hs
      cases d.players with
      | none => simp
      | some ps => simp [List.length_take]
  · intro d s hs
    unfold summarizeLeagueStructure at hs
    split at hs
    · exact absurd hs (by simp)
    · rw [Option.some_inj] at hs
      subst hs
      simp [leagueSummaryTeamCount, leagueTeamCount, List.map_map, Function.comp_def]
  · intro d s hs
    unfold summarizeStandingsData at hs
    split at hs
    · exact absurd hs (by simp)
    · rw [Option.some_inj] at hs
      subst hs
      simp [standingsSummaryTeamCount, standingsTeamCount, List.map_map, Function.comp_def]

/-- The summary of a minimal one-field team profile, used by the C5
witness. -/
def chiefsTeamInfo : TeamInfo :=
  { id := "", name := "Chiefs", market := "", «alias» := "", conference := "",
    division := "" }

def chiefsProfileSummary : ProfileSummary :=
  { team_info := chiefsTeamInfo
    coaches := []
    key_players := [] }

/-- C5 witness: the team-profile bound applied at a concrete profile. -/
theorem summarizer_blocks_bounded_witness :
    summarizeTeamProfile { name := some "Chiefs" } = some chiefsProfileSummary ∧
    chiefsProfileSummary.coaches.length ≤ 3 ∧
    chiefsProfileSummary.key_players.length ≤ 10 :=
  ⟨by decide, summarizer_blocks_bounded.2.2.2.1 { name := some "Chiefs" }
    chiefsProfileSummary (by decide)⟩

theorem find?_append_singleton {α : Type} (es : List (String × α)) (k : String) (v : α)
    (h : es.find? (fun p => p.1 == k) = none) :
    (es ++ [(k, v)]).find? (fun p => p.1 == k) = some (k, v) := by
  induction es with
  | nil => simp [List.find?]
  | cons e tl ih =>
    rw [List.find?_cons] at h
    rw [List.cons_append, List.find?_cons]
    cases hek : (e.1 == k) with
    | true =>
      rw [hek] at h
      cases h
    | false =>
      rw [hek] at h
      exact ih h

theorem LlmCache.lookup_insert_fresh (c : LlmCache) (k : String) (v : Nat × String)
    (h : c.lookup k = none) : (c.insert k v).lookup k = some v := by
  obtain ⟨es⟩ := c
  simp only [LlmCache.lookup, LlmCache.insert, upsert, Option.map_eq_none'] at h ⊢
  have hany : es.any (fun p => p.1 == k) = false := by
    rw [List.any_eq_false]
    intro x hx
    simpa using List.find?_eq_none.mp h x hx
  rw [hany]
  simp only [Bool.false_eq_true, if_false]
  rw [find?_append_singleton es k v h]
  rfl

/-- C4: the cache key is a pure function of the (query, context) pair,
so with a fresh key a first (successful) call goes outbound and caches
its answer; a second call with the same query and context strictly less
than 600 seconds later returns the cached answer with no outbound call,
and a call 600 or more seconds later goes outbound again. -/
theorem generate_response_cache_roundtrip
    (hashHex : String → String) (q c a : String) (cache : LlmCache)
    (t0 t1 t2 : Nat) (o1 o2 : LlmOutcome)
    (hfresh : cache.lookup (cacheKey hashHex q c) = none)
    (hhit : t1 - t0 < 600) (hexp : 600 ≤ t2 - t0) :
    (generateResponse hashHex (.success a) t0 q c cache).outboundCall = true ∧
    (generateResponse hashHex (.success a) t0 q c cache).answer = a ∧
    generateResponse hashHex o1 t1 q c
        (generateResponse hashHex (.success a) t0 q c cache).cache
      = ⟨a, (generateResponse hashHex (.success a) t0 q c cache).cache, false⟩ ∧
    (generateResponse hashHex o2 t2 q c
        (generateResponse hashHex (.success a) t0 q c cache).cache).outboundCall = true := by
  have h0 : generateResponse hashHex (.success a) t0 q c cache
      = ⟨a, cache.insert (cacheKey hashHex q c) (t0, a), true⟩ := by
    simp only [generateResponse, hfresh]
  have hl : (cache.insert (cacheKey hashHex q c) (t0, a)).lookup (cacheKey hashHex q c)
      = some (t0, a) :=
    LlmCache.lookup_insert_fresh _ _ _ hfresh
  rw [h0]
  refine ⟨rfl, rfl, ?_, ?_⟩
  · simp only [generateResponse, hl]
    rw [if_pos]
    show t1 - t0 < LLM_CACHE_TTL
    simpa [LLM_CACHE_TTL] using hhit
  · simp only [generateResponse, hl]
    rw [if_neg]
    · cases o2 <;> rfl
    · show ¬ t2 - t0 < LLM_CACHE_TTL
      simp only [LLM_CACHE_TTL]
      omega

/-- C4 witness: concrete round trip with the identity standing for the
hash, times 0, 599 and 600. -/
theorem generate_response_cache_roundtrip_witness :
    LlmCache.lookup {} (cacheKey id "q" "ctx") = none ∧
    599 - 0 < 600 ∧ 600 ≤ 600 - 0 ∧
    ((generateResponse id (.success "ans") 0 "q" "ctx" {}).outboundCall = true ∧
     (generateResponse id (.success "ans") 0 "q" "ctx" {}).answer = "ans" ∧
     generateResponse id .rateLimited 599 "q" "ctx"
         (generateResponse id (.success "ans") 0 "q" "ctx" {}).cache
       = ⟨"ans", (generateResponse id (.success "ans") 0 "q" "ctx" {}).cache, false⟩ ∧
     (generateResponse id .rateLimited 600 "q" "ctx"
         (generateResponse id (.success "ans") 0 "q" "ctx" {}).cache).outboundCall = true) :=
  ⟨rfl, by decide, by decide,
    generate_response_cache_roundtrip id "q" "ctx" "ans" {} 0 599 600
      .rateLimited .rateLimited rfl (by decide) (by decide)⟩

/-- A client whose standings endpoint fails while every other endpoint
succeeds. -/
def standingsDownApi : ApiClient :=
  { getTeams := .ok {}
    getStandings := fun _ _ => .error "API error 500"
    getSchedule := fun _ _ => .ok {}
    getTeamProfile := fun _ => .ok {}
    getWeeklyInjuries := fun _ _ _ => .ok {}
    getGameBoxscore := fun _ => .ok {} }

/-- C1 counterexample: a single upstream failure (the standings fetch of
a standings query, with the teams fetch succeeding) is not caught and
degraded to an omitted block: the whole aggregation returns the
`(error, query_type)` form instead of a combined structure carrying the
metadata and the other successfully fetched blocks. -/
theorem fetch_single_failure_returns_error :
    fetchRelevantData standingsDownApi "standings" {}
      = .err "API error 500" "standings" := rfl

/-- The player_rankings branch of the fetch plan, by evaluation of the
query-type chain. -/
theorem fetchE_player_rankings (api : ApiClient) (p : Params) :
    fetchRelevantDataE api "player_rankings" p =
      (match api.getTeams with
      | .error e => .error e
      | .ok lg =>
        match api.getStandings (fetchYear p) (fetchSeasonType p) with
        | .error e => .error e
        | .ok st =>
          let d := { baseCombined "player_rankings" p with
            league := some lg, standings := some st }
          if (fetchTeams p).isEmpty then .ok d
          else .ok { d with
            team_profiles := some (fetchProfiles api ((fetchTeams p).take 2)) }) := rfl

/-- The matchups branch of the fetch plan. -/
theorem fetchE_matchups (api : ApiClient) (p : Params) :
    fetchRelevantDataE api "matchups" p =
      (match api.getSchedule (fetchYear p) (fetchSeasonType p) with
      | .error e => .error e
      | .ok sch =>
        let d := { baseCombined "matchups" p with schedule := some sch }
        if (fetchTeams p).isEmpty then .ok d
        else .ok { d with
          relevant_games := some (relevantGames (fetchTeams p) (sch.games.getD []))
          team_profiles := some (fetchProfiles api ((fetchTeams p).take 2)) }) := rfl

/-- The injuries branch of the fetch plan. -/
theorem fetchE_injuries (api : ApiClient) (p : Params) :
    fetchRelevantDataE api "injuries" p =
      (match api.getWeeklyInjuries (fetchYear p) (fetchSeasonType p) (fetchWeek p) with
      | .error e => .error e
      | .ok inj =>
        match api.getTeams with
        | .error e => .error e
        | .ok lg =>
          let d := { baseCombined "injuries" p with
            injuries := some inj, league := some lg }
          if (fetchTeams p).isEmpty then .ok d
          else .ok { d with
            team_injuries := some (buildTeamInjuries (fetchTeams p) inj) }) := rfl

/-- The schedule branch of the fetch plan. -/
theorem fetchE_schedule (api : ApiClient) (p : Params) :
    fetchRelevantDataE api "schedule" p =
      (match api.getSchedule (fetchYear p) (fetchSeasonType p) with
      | .error e => .error e
      | .ok sch =>
        match api.getTeams with
        | .error e => .error e
        | .ok lg =>
          let d := { baseCombined "schedule" p with
            schedule := some sch, league := some lg }
          if (fetchTeams p).isEmpty then .ok d
          else .ok { d with
            team_games := some (buildTeamGames (fetchTeams p) (sch.games.getD [])) }) := rfl

/-- The depth_chart branch of the fetch plan. -/
theorem fetchE_depth_chart (api : ApiClient) (p : Params) :
    fetchRelevantDataE api "depth_chart" p =
      (match api.getTeams with
      | .error e => .error e
      | .ok lg =>
        let d := { baseCombined "depth_chart" p with league := some lg }
        if (fetchTeams p).isEmpty then
          .ok { d with team_profiles := some (fetchProfiles api ["KC", "SF"]) }
        else
          .ok { d with
            team_profiles := some (fetchProfiles api ((fetchTeams p).take 2)) }) := rfl

/-- The standings branch of the fetch plan. -/
theorem fetchE_standings (api : ApiClient) (p : Params) :
    fetchRelevantDataE api "standings" p =
      (match api.getStandings (fetchYear p) (fetchSeasonType p) with
      | .error e => .error e
      | .ok st =>
        match api.getTeams with
        | .error e => .error e
        | .ok lg =>
          .ok { baseCombined "standings" p with
            standings := some st, league := some lg }) := rfl

/-- The boxscore branch of the fetch plan. -/
theorem fetchE_boxscore (api : ApiClient) (p : Params) :
    fetchRelevantDataE api "boxscore" p =
      (match api.getSchedule (fetchYear p) (fetchSeasonType p) with
      | .error e => .error e
      | .ok sch =>
        let d := { baseCombined "boxscore" p with schedule := some sch }
        if (fetchTeams p).isEmpty then .ok d
        else
          if (relevantGames (fetchTeams p) (sch.games.getD [])).isEmpty then .ok d
          else
            match sortGamesDesc (relevantGames (fetchTeams p) (sch.games.getD [])) with
            | [] => .ok d
            | g0 :: rest =>
              let d2 := { d with relevant_games := some ((g0 :: rest).take 2) }
              match g0.id with
              | none => .ok d2
              | some gid =>
                if gid == "" then .ok d2
                else
                  match api.getGameBoxscore gid with
                  | .ok b => .ok { d2 with boxscore := some b }
                  | .error _ => .ok d2) := rfl

/-- The default (general) branch of the fetch plan, for any query type
not in the chain. -/
theorem fetchE_general (api : ApiClient) (qt : String) (p : Params)
    (h1 : (qt == "player_rankings") = false) (h2 : (qt == "matchups") = false)
    (h3 : (qt == "injuries") = false) (h4 : (qt == "schedule") = false)
    (h5 : (qt == "depth_chart") = false) (h6 : (qt == "standings") = false)
    (h7 : (qt == "boxscore") = false) :
    fetchRelevantDataE api qt p =
      (match api.getTeams with
      | .error e => .error e
      | .ok lg =>
        match api.getStandings (fetchYear p) (fetchSeasonType p) with
        | .error e => .error e
        | .ok st =>
          match api.getSchedule (fetchYear p) (fetchSeasonType p) with
          | .error e => .error e
          | .ok sch =>
            .ok { baseCombined qt p with
              league := some lg, standings := some st, schedule := some sch }) := by
  unfold fetchRelevantDataE
  simp only [h1, h2, h3, h4, h5, h6, h7, Bool.false_eq_true, if_false]

/-- Every successful aggregation carries the requested query type and the
metadata derived from the params, on every branch of the fetch plan. -/
theorem fetchRelevantDataE_ok_shape (api : ApiClient) (qt : String) (p : Params)
    (d : CombinedData) (h : fetchRelevantDataE api qt p = .ok d) :
    d.query_type = qt ∧
    d.metadata = ⟨p.year.getD "2023", p.season_type.getD "REG", p.week.getD "1"⟩ := by
  by_cases h1 : qt = "player_rankings"
  case pos =>
    subst h1; rw [fetchE_player_rankings] at h
    repeat' (split at h)
    all_goals first
      | (cases h; exact ⟨rfl, rfl⟩)
      | cases h
  by_cases h2 : qt = "matchups"
  case pos =>
    subst h2; rw [fetchE_matchups] at h
    repeat' (split at h)
    all_goals first
      | (cases h; exact ⟨rfl, rfl⟩)
      | cases h
  by_cases h3 : qt = "injuries"
  case pos =>
    subst h3; rw [fetchE_injuries] at h
    repeat' (split at h)
    all_goals first
      | (cases h; exact ⟨rfl, rfl⟩)
      | cases h
  by_cases h4 : qt = "schedule"
  case pos =>
    subst h4; rw [fetchE_schedule] at h
    repeat' (split at h)
    all_goals first
      | (cases h; exact ⟨rfl, rfl⟩)
      | cases h
  by_cases h5 : qt = "depth_chart"
  case pos =>
    subst h5; rw [fetchE_depth_chart] at h
    repeat' (split at h)
    all_goals first
      | (cases h; exact ⟨rfl, rfl⟩)
      | cases h
  by_cases h6 : qt = "standings"
  case pos =>
    subst h6; rw [fetchE_standings] at h
    repeat' (split at h)
    all_goals first
      | (cases h; exact ⟨rfl, rfl⟩)
      | cases h
  by_cases h7 : qt = "boxscore"
  case pos =>
    subst h7; rw [fetchE_boxscore] at h
    repeat' (split at h)
    all_goals first
      | (cases h; exact ⟨rfl, rfl⟩)
      | cases h
  case neg =>
    rw [fetchE_general api qt p (by simp [h1]) (by simp [h2]) (by simp [h3])
      (by simp [h4]) (by simp [h5]) (by simp [h6]) (by simp [h7])] at h
    repeat' (split at h)
    all_goals first
      | (cases h; exact ⟨rfl, rfl⟩)
      | cases h

/-- Under successful always-fetched calls, no branch of the fetch plan
can end in the error form. -/
theorem fetchRelevantDataE_no_error (api : ApiClient) (qt : String) (p : Params)
    (lg : LeagueData) (sd : StandingsData) (sch : ScheduleData) (inj : InjuryReportData)
    (hT : api.getTeams = .ok lg)
    (hS : api.getStandings (fetchYear p) (fetchSeasonType p) = .ok sd)
    (hSch : api.getSchedule (fetchYear p) (fetchSeasonType p) = .ok sch)
    (hI : api.getWeeklyInjuries (fetchYear p) (fetchSeasonType p) (fetchWeek p) = .ok inj)
    (e : String) (h : fetchRelevantDataE api qt p = .error e) : False := by
  by_cases h1 : qt = "player_rankings"
  case pos =>
    subst h1; rw [fetchE_player_rankings] at h
    simp only [hT, hS] at h
    repeat' (split at h)
    all_goals simp at h
  by_cases h2 : qt = "matchups"
  case pos =>
    subst h2; rw [fetchE_matchups] at h
    simp only [hSch] at h
    repeat' (split at h)
    all_goals simp at h
  by_cases h3 : qt = "injuries"
  case pos =>
    subst h3; rw [fetchE_injuries] at h
    simp only [hT, hI] at h
    repeat' (split at h)
    all_goals simp at h
  by_cases h4 : qt = "schedule"
  case pos =>
    subst h4; rw [fetchE_schedule] at h
    simp only [hT, hSch] at h
    repeat' (split at h)
    all_goals simp at h
  by_cases h5 : qt = "depth_chart"
  case pos =>
    subst h5; rw [fetchE_depth_chart] at h
    simp only [hT] at h
    repeat' (split at h)
    all_goals simp at h
  by_cases h6 : qt = "standings"
  case pos =>
    subst h6; rw [fetchE_standings] at h
    simp only [hT, hS] at h
    simp at h
  by_cases h7 : qt = "boxscore"
  case pos =>
    subst h7; rw [fetchE_boxscore] at h
    simp only [hSch] at h
    repeat' (split at h)
    all_goals simp at h
  case neg =>
    rw [fetchE_general api qt p (by simp [h1]) (by simp [h2]) (by simp [h3])
      (by simp [h4]) (by simp [h5]) (by simp [h6]) (by simp [h7])] at h
    simp only [hT, hS, hSch] at h
    simp at h

/-- C1 (amended): only the team-profile and boxscore sub-fetches are
individually caught, a failure at most omitting their own entry or block;
whenever the always-fetched calls of a branch succeed, the aggregator
returns the combined structure with its query_type and metadata whatever
the team-profile and boxscore outcomes; a failure of any non-wrapped call
(teams, standings, schedule, weekly injuries) instead escapes to the
top-level handler, which returns the `(error, query_type)` form. -/
theorem fetch_profile_and_boxscore_failures_absorbed
    (api : ApiClient) (qt : String) (p : Params)
    (lg : LeagueData) (sd : StandingsData) (sch : ScheduleData) (inj : InjuryReportData)
    (hT : api.getTeams = .ok lg)
    (hS : api.getStandings (p.year.getD "2023") (p.season_type.getD "REG") = .ok sd)
    (hSch : api.getSchedule (p.year.getD "2023") (p.season_type.getD "REG") = .ok sch)
    (hI : api.getWeeklyInjuries (p.year.getD "2023") (p.season_type.getD "REG")
        (p.week.getD "1") = .ok inj) :
    ∃ d, fetchRelevantData api qt p = .ok d ∧ d.query_type = qt ∧
      d.metadata = ⟨p.year.getD "2023", p.season_type.getD "REG", p.week.getD "1"⟩ := by
  cases hres : fetchRelevantDataE api qt p with
  | error e =>
    exact absurd hres (fun h => fetchRelevantDataE_no_error api qt p lg sd sch inj
      hT hS hSch hI e h)
  | ok d =>
    obtain ⟨h1, h2⟩ := fetchRelevantDataE_ok_shape api qt p d hres
    exact ⟨d, by simp [fetchRelevantData, hres], h1, h2⟩

/-- A client whose team-profile and boxscore endpoints fail while the
always-fetched endpoints succeed. -/
def profilesDownApi : ApiClient :=
  { getTeams := .ok {}
    getStandings := fun _ _ => .ok {}
    getSchedule := fun _ _ => .ok {}
    getTeamProfile := fun _ => .error "profile endpoint down"
    getWeeklyInjuries := fun _ _ _ => .ok {}
    getGameBoxscore := fun _ => .error "boxscore endpoint down" }

/-- C1 witness: with failing team-profile calls, a player_rankings query
for two teams still aggregates successfully. -/
theorem fetch_profile_and_boxscore_failures_absorbed_witness :
    profilesDownApi.getTeams = .ok {} ∧
    profilesDownApi.getStandings "2023" "REG" = .ok {} ∧
    profilesDownApi.getSchedule "2023" "REG" = .ok {} ∧
    profilesDownApi.getWeeklyInjuries "2023" "REG" "1" = .ok {} ∧
    profilesDownApi.getTeamProfile "KC" = .error "profile endpoint down" ∧
    (∃ d, fetchRelevantData profilesDownApi "player_rankings"
        { teams := some ["KC", "PHI"] } = .ok d ∧
      d.query_type = "player_rankings" ∧
      d.metadata = ⟨"2023", "REG", "1"⟩) :=
  ⟨rfl, rfl, rfl, rfl, rfl,
    fetch_profile_and_boxscore_failures_absorbed profilesDownApi "player_rankings"
      { teams := some ["KC", "PHI"] } {} {} {} {} rfl rfl rfl rfl⟩

/-- What the boxscore branch fetches for the most recent relevant game:
the boxscore for the first sorted game's id, when that id is present,
non-empty, and the fetch succeeds. -/
def boxscoreForMostRecent (api : ApiClient) (sorted : List GameData) :
    Option BoxscoreData :=
  match sorted.head? with
  | none => none
  | some g0 =>
    match g0.id with
    | none => none
    | some gid => if gid == "" then none else (api.getGameBoxscore gid).toOption

/-- C7: for a boxscore query with non-empty team codes whose schedule
fetch succeeds and matches at least one game, the aggregator stores as
relevant_games exactly the first two games of the filtered list sorted
descending (a sorted permutation of the filter by home/away membership)
by the scheduled timestamp string, and the boxscore block is exactly the
fetch for the most recent (first) sorted game's id when that id is
present. -/
theorem fetch_boxscore_branch
    (api : ApiClient) (p : Params) (sch : ScheduleData)
    (hSch : api.getSchedule (p.year.getD "2023") (p.season_type.getD "REG") = .ok sch)
    (hteams : (p.teams.getD []).isEmpty = false)
    (hrel : (relevantGames (p.teams.getD []) (sch.games.getD [])).isEmpty = false) :
    ∃ d, fetchRelevantData api "boxscore" p = .ok d ∧
      d.schedule = some sch ∧
      d.relevant_games =
        some ((sortGamesDesc (relevantGames (p.teams.getD []) (sch.games.getD []))).take 2) ∧
      List.Perm (sortGamesDesc (relevantGames (p.teams.getD []) (sch.games.getD [])))
        (relevantGames (p.teams.getD []) (sch.games.getD [])) ∧
      List.Sorted (fun a b : GameData => strLe (b.scheduled.getD "") (a.scheduled.getD ""))
        (sortGamesDesc (relevantGames (p.teams.getD []) (sch.games.getD []))) ∧
      d.boxscore = boxscoreForMostRecent api
        (sortGamesDesc (relevantGames (p.teams.getD []) (sch.games.getD []))) := by
  haveI htot : IsTotal GameData (fun a b => strLe (b.scheduled.getD "") (a.scheduled.getD "")) :=
    ⟨fun a b => strLe_total (b.scheduled.getD "") (a.scheduled.getD "")⟩
  haveI htr : IsTrans GameData (fun a b => strLe (b.scheduled.getD "") (a.scheduled.getD "")) :=
    ⟨fun a b c h1 h2 => strLe_trans (c.scheduled.getD "") (b.scheduled.getD "")
      (a.scheduled.getD "") h2 h1⟩
  have hperm : List.Perm (sortGamesDesc (relevantGames (p.teams.getD []) (sch.games.getD [])))
      (relevantGames (p.teams.getD []) (sch.games.getD [])) :=
    List.perm_insertionSort _ _
  have hsorted : List.Sorted (fun a b : GameData => strLe (b.scheduled.getD "") (a.scheduled.getD ""))
      (sortGamesDesc (relevantGames (p.teams.getD []) (sch.games.getD []))) :=
    List.sorted_insertionSort _ _
  unfold fetchRelevantData
  rw [fetchE_boxscore]
  simp only [fetchYear, fetchSeasonType, fetchWeek, fetchTeams, hSch, hteams, hrel,
    Bool.false_eq_true, if_false]
  cases hs : sortGamesDesc (relevantGames (p.teams.getD []) (sch.games.getD [])) with
  | nil =>
    exfalso
    have hlen := hperm.length_eq
    rw [hs] at hlen
    have hne : relevantGames (p.teams.getD []) (sch.games.getD []) ≠ [] := by
      intro hnil
      rw [hnil] at hrel
      simp at hrel
    exact hne (List.length_eq_zero.mp hlen.symm)
  | cons g0 rest =>
    rw [hs] at hperm hsorted
    simp only []
    cases hid : g0.id with
    | none =>
      exact ⟨_, rfl, rfl, rfl, hperm, hsorted, by simp [boxscoreForMostRecent, baseCombined, hid]⟩
    | some gid =>
      simp only []
      cases hgid : (gid == "") with
      | true =>
        exact ⟨_, rfl, rfl, rfl, hperm, hsorted,
          by simp [boxscoreForMostRecent, baseCombined, hid, hgid]⟩
      | false =>
        cases hb : api.getGameBoxscore gid with
        | ok b =>
          exact ⟨_, rfl, rfl, rfl, hperm, hsorted,
            by simp [boxscoreForMostRecent, baseCombined, hid, hgid, hb, Except.toOption]⟩
        | error e =>
          exact ⟨_, rfl, rfl, rfl, hperm, hsorted,
            by simp [boxscoreForMostRecent, baseCombined, hid, hgid, hb, Except.toOption]⟩

def gameEarly : GameData :=
  { id := some "game-early"
    scheduled := some "2024-09-10T17:00:00Z"
    home := some { «alias» := some "KC" } }

def gameLate : GameData :=
  { id := some "game-late"
    scheduled := some "2024-12-01T17:00:00Z"
    away := some { «alias» := some "KC" } }

def gameOther : GameData :=
  { id := some "game-other"
    scheduled := some "2024-10-01T17:00:00Z"
    home := some { «alias» := some "DAL" } }

def boxSchedule : ScheduleData := { games := some [gameEarly, gameLate, gameOther] }

def pBox : Params := { teams := some ["KC"] }

/-- A client serving the three-game schedule above, with a boxscore only
for the most recent KC game. -/
def boxApi : ApiClient :=
  { getTeams := .ok {}
    getStandings := fun _ _ => .ok {}
    getSchedule := fun _ _ => .ok boxSchedule
    getTeamProfile := fun _ => .ok {}
    getWeeklyInjuries := fun _ _ _ => .ok {}
    getGameBoxscore := fun gid =>
      if gid == "game-late" then .ok { id := some "game-late" } else .error "not found" }

/-- C7 witness: two KC games filtered out of three, sorted most recent
first, the top two stored, and the boxscore fetched for the most recent
game's id. -/
theorem fetch_boxscore_branch_witness :
    boxApi.getSchedule "2023" "REG" = .ok boxSchedule ∧
    (pBox.teams.getD []).isEmpty = false ∧
    (relevantGames (pBox.teams.getD []) (boxSchedule.games.getD [])).isEmpty = false ∧
    relevantGames (pBox.teams.getD []) (boxSchedule.games.getD []) = [gameEarly, gameLate] ∧
    sortGamesDesc (relevantGames (pBox.teams.getD []) (boxSchedule.games.getD []))
      = [gameLate, gameEarly] ∧
    boxscoreForMostRecent boxApi [gameLate, gameEarly] = some { id := some "game-late" } ∧
    (∃ d, fetchRelevantData boxApi "boxscore" pBox = .ok d ∧
      d.schedule = some boxSchedule ∧
      d.relevant_games =
        some ((sortGamesDesc (relevantGames (pBox.teams.getD [])
          (boxSchedule.games.getD []))).take 2) ∧
      List.Perm (sortGamesDesc (relevantGames (pBox.teams.getD [])
          (boxSchedule.games.getD [])))
        (relevantGames (pBox.teams.getD []) (boxSchedule.games.getD [])) ∧
      List.Sorted (fun a b : GameData => strLe (b.scheduled.getD "") (a.scheduled.getD ""))
        (sortGamesDesc (relevantGames (pBox.teams.getD []) (boxSchedule.games.getD []))) ∧
      d.boxscore = boxscoreForMostRecent boxApi
        (sortGamesDesc (relevantGames (pBox.teams.getD []) (boxSchedule.games.getD [])))) :=
  ⟨rfl, by decide, by decide, by decide, by decide, by decide,
    fetch_boxscore_branch boxApi pBox boxSchedule rfl (by decide) (by decide)⟩

end ChatNfl
